import Mathlib

/-!
Verification of the Bostonia microservices (content-moderation,
memory-service, ai-orchestration) against their specification.

The Python sources are shallowly embedded:
* `re.search` over the moderation service's `BLOCKED_PATTERNS` is embedded by a
  small matcher for exactly the regex constructs those four patterns use
  (literals, alternation, character classes, `\s+`, `?`, `\b`), together with
  Lean values mirroring each pattern string.
* Python floats are modelled as rationals (`ℚ`); the float operation `** 0.5`
  (square root) has no rational counterpart and is abstracted as a function
  parameter wherever it occurs.
* The LLM classifier, the embedding provider and Python's process-seeded
  `hash` are external effects and are passed in as explicit parameters.
* Redis is modelled as a functional state: a record map and an index-set map.
  TTL bookkeeping (`setex`/`expire` durations) is elided: no claim mentions
  expiry.
-/

set_option autoImplicit false

namespace Bostonia

/-! ### A matcher for the regex fragment used by `BLOCKED_PATTERNS`

The four patterns in `src/services/content-moderation/src/routes/moderation.py`
use only: literal characters, alternation `(a|b|c)`, character classes
(`\s`, `[- ]`, `['’]`), one-or-more on a class (`\s+`), optional `?`,
and the word boundary `\b`.  `Re` is that fragment; `mrun` returns every
possible (last consumed char, remaining input) state after matching a prefix,
and `reSearch` tries every start position, exactly as `re.search` does.
-/

/-- Regex fragment: `plusCls` is `\s+`-style one-or-more over a character
class (the only use of `+` in the blocked patterns), `wb` is `\b`. -/
inductive Re where
  | eps : Re
  | lit : Char → Re
  | cls : (Char → Bool) → Re
  | plusCls : (Char → Bool) → Re
  | opt : Re → Re
  | seq : Re → Re → Re
  | alt : Re → Re → Re
  | wb : Re

/-- Python `\w` (ASCII part; inputs in this development are ASCII). -/
def isWordChar (c : Char) : Bool :=
  c.isAlpha || c.isDigit || c = Char.ofNat 95

/-- Python `\s`. -/
def isPySpace (c : Char) : Bool :=
  c = Char.ofNat 32 || c = Char.ofNat 9 || c = Char.ofNat 10 ||
  c = Char.ofNat 13 || c = Char.ofNat 11 || c = Char.ofNat 12

/-- All splits consuming one or more chars satisfying `p`
(each result: last consumed char, rest). -/
def consumePlus (p : Char → Bool) : Option Char → List Char → List (Option Char × List Char)
  | _, [] => []
  | _, c :: rest =>
    if p c then (some c, rest) :: consumePlus p (some c) rest else []

/-- Match a prefix of `s`; `prev` is the character just before `s` (for `\b`).
Returns all reachable (new prev, remaining input) states. -/
def mrun : Re → Option Char → List Char → List (Option Char × List Char)
  | .eps, prev, s => [(prev, s)]
  | .lit c, _, s =>
    match s with
    | [] => []
    | c1 :: rest => if c1 = c then [(some c1, rest)] else []
  | .cls p, _, s =>
    match s with
    | [] => []
    | c1 :: rest => if p c1 then [(some c1, rest)] else []
  | .plusCls p, prev, s => consumePlus p prev s
  | .opt r, prev, s => (prev, s) :: mrun r prev s
  | .seq a b, prev, s =>
    (mrun a prev s).flatMap (fun st => mrun b st.1 st.2)
  | .alt a b, prev, s => mrun a prev s ++ mrun b prev s
  | .wb, prev, s =>
    let left := match prev with
      | none => false
      | some c => isWordChar c
    let right := match s with
      | [] => false
      | c :: _ => isWordChar c
    if left != right then [(prev, s)] else []

/-- Semantics of `re.search`: try to match at every start position. -/
def searchFrom (r : Re) : Option Char → List Char → Bool
  | prev, [] => !(mrun r prev []).isEmpty
  | prev, c :: rest =>
    if (mrun r prev (c :: rest)).isEmpty then searchFrom r (some c) rest
    else true

def reSearch (r : Re) (s : String) : Bool :=
  searchFrom r none s.toList

/-- Sequence of a list of regexes. -/
def seqAll (rs : List Re) : Re :=
  rs.foldr Re.seq Re.eps

/-- Literal word. -/
def rstr (s : String) : Re :=
  seqAll (s.toList.map Re.lit)

/-- Alternation of a non-empty list (right-nested, mirroring `(a|b|c)`). -/
def altAll : List Re → Re
  | [] => Re.eps
  | [r] => r
  | r :: rs => Re.alt r (altAll rs)

/-! ### Content moderation service
`src/services/content-moderation/src/routes/moderation.py` and
`src/services/content-moderation/src/config.py`. -/

/-- The regex `r"\b(kill|murder|harm|attack|hurt)\s+(yourself|myself|people|someone)\b"`. -/
def pattern_violence : Re :=
  seqAll [Re.wb,
    altAll [rstr "kill", rstr "murder", rstr "harm", rstr "attack", rstr "hurt"],
    Re.plusCls isPySpace,
    altAll [rstr "yourself", rstr "myself", rstr "people", rstr "someone"],
    Re.wb]

/-- The regex `r"\b(suicide|self[- ]?harm|end\s+(my|your)\s+life)\b"`. -/
def pattern_self_harm : Re :=
  seqAll [Re.wb,
    altAll [rstr "suicide",
      seqAll [rstr "self",
        Re.opt (Re.cls (fun c => c = Char.ofNat 45 || c = Char.ofNat 32)),
        rstr "harm"],
      seqAll [rstr "end", Re.plusCls isPySpace,
        altAll [rstr "my", rstr "your"],
        Re.plusCls isPySpace, rstr "life"]],
    Re.wb]

/-- The regex `r"\b(how\s+to\s+(make|create|build)\s+(bomb|weapon|drug))\b"`. -/
def pattern_illegal : Re :=
  seqAll [Re.wb,
    rstr "how", Re.plusCls isPySpace, rstr "to", Re.plusCls isPySpace,
    altAll [rstr "make", rstr "create", rstr "build"],
    Re.plusCls isPySpace,
    altAll [rstr "bomb", rstr "weapon", rstr "drug"],
    Re.wb]

/-- The regex `r"\b(what['’]?s\s+your\s+(address|phone|ssn|credit\s+card))\b"`. -/
def pattern_personal_info : Re :=
  seqAll [Re.wb,
    rstr "what",
    Re.opt (Re.cls (fun c => c = Char.ofNat 39 || c = Char.ofNat 8217)),
    rstr "s", Re.plusCls isPySpace, rstr "your", Re.plusCls isPySpace,
    altAll [rstr "address", rstr "phone", rstr "ssn",
      seqAll [rstr "credit", Re.plusCls isPySpace, rstr "card"]],
    Re.wb]

/-- The list `BLOCKED_PATTERNS`, in source order. -/
def BLOCKED_PATTERNS : List Re :=
  [pattern_violence, pattern_self_harm, pattern_illegal, pattern_personal_info]

structure ModerationFlag where
  category : String
  severity : String
  description : String
deriving DecidableEq, Repr

structure ModerationResponse where
  passed : Bool
  flags : List ModerationFlag
  score : ℚ
deriving DecidableEq, Repr

/-- The moderation thresholds of `Settings` (`config.py`); the other settings
fields (port, URLs, API key) do not enter the moderated result. -/
structure Settings where
  severity_threshold_low : ℚ
  severity_threshold_medium : ℚ
  severity_threshold_high : ℚ
deriving DecidableEq, Repr

/-- The defaults of `config.py` (0.3, 0.6, 0.8). -/
def defaultSettings : Settings :=
  { severity_threshold_low := mkRat 3 10
    severity_threshold_medium := mkRat 6 10
    severity_threshold_high := mkRat 8 10 }

/-- The flag appended once per matching pattern in `check_keyword_filters`. -/
def keywordFlag : ModerationFlag :=
  { category := "keyword_match"
    severity := "high"
    description := "Content matched blocked pattern" }

/-- Python `content.lower()` (ASCII lowering; the blocked patterns and all
concrete inputs of this development are ASCII). -/
def pyToLower (s : String) : String :=
  String.mk (s.data.map Char.toLower)

/-- The function `check_keyword_filters`: scan the lowercased content against each blocked
pattern, appending one high-severity flag per matching pattern. -/
def check_keyword_filters (content : String) : List ModerationFlag :=
  (BLOCKED_PATTERNS.filter (fun p => reSearch p (pyToLower content))).map
    (fun _ => keywordFlag)

/-- Outcome of the LLM moderation call as seen by `check_ai_moderation`:
client `None`, API exception, a non-JSON response body, or parsed JSON
(field defaults of the Python already applied to each flag). -/
inductive ClassifierResponse where
  | unavailable : ClassifierResponse
  | apiError : ClassifierResponse
  | unparseable : String → ClassifierResponse
  | parsed : List ModerationFlag → ℚ → ClassifierResponse

/-- The function `check_ai_moderation`: `([], 0.0)` when the client is unconfigured, the
API raises, or the response is not valid JSON; otherwise the parsed flags
and score. -/
def check_ai_moderation : ClassifierResponse → List ModerationFlag × ℚ
  | .unavailable => ([], 0)
  | .apiError => ([], 0)
  | .unparseable _ => ([], 0)
  | .parsed flags score => (flags, score)

/-- Threshold lookup `thresholds.get(request.filter_level, medium)`. -/
def thresholdFor (s : Settings) (filter_level : String) : ℚ :=
  if filter_level = "strict" then s.severity_threshold_low
  else if filter_level = "moderate" then s.severity_threshold_medium
  else if filter_level = "relaxed" then s.severity_threshold_high
  else s.severity_threshold_medium

/-- The handler `moderate_content` (`POST /moderate`): keyword filters first; any
high-severity keyword flag short-circuits to `passed=False, score=1.0`;
otherwise the classifier result is combined (keyword flags floor the score at
0.5) and compared to the filter-level threshold.  `resp` is the classifier
outcome for this content. -/
def moderate_content (resp : ClassifierResponse) (s : Settings)
    (content filter_level : String) : ModerationResponse :=
  let keyword_flags := check_keyword_filters content
  if keyword_flags.any (fun f => f.severity == "high") then
    { passed := false, flags := keyword_flags, score := 1 }
  else
    let ai := check_ai_moderation resp
    let all_flags := keyword_flags ++ ai.1
    let final_score := if keyword_flags.isEmpty then ai.2 else max ai.2 (mkRat 1 2)
    let passed := decide (final_score < thresholdFor s filter_level) &&
      !(all_flags.any (fun f => f.severity == "high"))
    { passed := passed, flags := all_flags, score := final_score }

/-- Loop body of `moderate_batch`: note the score is the raw classifier
score and the pass test uses the medium threshold, with no 0.5 keyword
floor and no short-circuit. -/
def moderate_batch_item (classifier : String → ClassifierResponse)
    (s : Settings) (content : String) : ModerationResponse :=
  let keyword_flags := check_keyword_filters content
  let ai := check_ai_moderation (classifier content)
  let all_flags := keyword_flags ++ ai.1
  let passed := decide (ai.2 < s.severity_threshold_medium) &&
    !(all_flags.any (fun f => f.severity == "high"))
  { passed := passed, flags := all_flags, score := ai.2 }

/-- The handler `moderate_batch` (`POST /moderate/batch`): first 10 items, each
moderated independently by the loop body. -/
def moderate_batch (classifier : String → ClassifierResponse)
    (s : Settings) (contents : List String) : List ModerationResponse :=
  (contents.take 10).map (moderate_batch_item classifier s)

/-! ### Memory service
`src/services/memory-service/src/routes/memory.py`.  Redis is modelled as a
functional state; embeddings are lists of rationals; the OpenAI embedding
call and Python's `hash` are explicit function parameters. -/

structure StoreMemoryRequest where
  conversation_id : String
  content : String
  memory_type : String
  importance : ℚ

structure RetrieveMemoryRequest where
  conversation_id : String
  query : String
  limit : Nat

/-- The JSON object written by `store_memory` under `memory:{id}`. -/
structure MemoryData where
  id : String
  conversation_id : String
  content : String
  type : String
  importance : ℚ
  embedding : Option (List ℚ)
deriving DecidableEq, Repr

/-- One element of the `memories` list returned by `retrieve_memories`. -/
structure MemoryView where
  id : String
  content : String
  type : String
  importance : ℚ
  relevance_score : Option ℚ
deriving DecidableEq, Repr

/-- Redis as used by the memory service: string keys `memory:{id}` holding
records, and set keys `memory_index:{conversation_id}` holding id sets
(a missing set key is the empty set, as in Redis).  A set is modelled as a
list without duplicates; `sadd` below only inserts absent members, as Redis
does. -/
structure RedisState where
  records : String → Option MemoryData
  indexes : String → List String

/-- Redis `SADD`: insert the member unless already present. -/
def saddList (l : List String) (x : String) : List String :=
  if x ∈ l then l else x :: l

/-- The handler `store_memory` (`POST /memory/store`): derives the id from
`conversation_id` and `hash(content)`, writes the record, adds the id to the
conversation's index set.  `pyhash` is Python's process-seeded `hash`,
`embed` the best-effort OpenAI embedding (`none` when unconfigured or
failing).  Returns the new state and the id. -/
def store_memory (pyhash : String → Int) (embed : String → Option (List ℚ))
    (st : RedisState) (req : StoreMemoryRequest) : RedisState × String :=
  let memory_id := req.conversation_id ++ ":" ++ toString (pyhash req.content)
  let data : MemoryData :=
    { id := memory_id
      conversation_id := req.conversation_id
      content := req.content
      type := req.memory_type
      importance := req.importance
      embedding := embed req.content }
  let key := "memory:" ++ memory_id
  let index_key := "memory_index:" ++ req.conversation_id
  let st1 : RedisState :=
    { st with records := fun k => if k = key then some data else st.records k }
  let st2 : RedisState :=
    { st1 with indexes := fun k =>
        if k = index_key then saddList (st1.indexes k) memory_id else st1.indexes k }
  (st2, memory_id)

/-- Python float division, which raises `ZeroDivisionError` (`none`) on a
zero denominator. -/
def pyDiv (x y : ℚ) : Option ℚ :=
  if y = 0 then none else some (x / y)

/-- The `cosine_similarity` closure inside `retrieve_memories`.  `sqrt`
abstracts the float operation `** 0.5`; the guard `if norm_a and norm_b`
(float truthiness = nonzero) is the source's, and the division is `pyDiv`
so that an unguarded zero division would surface as `none`. -/
def cosine_similarity (sqrt : ℚ → ℚ) (a b : List ℚ) : Option ℚ :=
  let dot := (List.zipWith (fun x y => x * y) a b).sum
  let norm_a := sqrt ((a.map (fun x => x * x)).sum)
  let norm_b := sqrt ((b.map (fun x => x * x)).sum)
  if norm_a ≠ 0 ∧ norm_b ≠ 0 then pyDiv dot (norm_a * norm_b) else some 0

/-- The handler `retrieve_memories` (`POST /memory/retrieve`): loads the indexed records
(stale index entries whose record is gone are skipped by `filterMap`), scores
by cosine similarity against the query embedding (falling back to the
record's importance when the record has no embedding), or sorts by importance
when there is no query embedding, and returns the top `limit`.
`cosine_similarity` never returns `none` (proved below), so the `getD 0`
default is never taken. -/
def retrieve_memories (sqrt : ℚ → ℚ) (embed : String → Option (List ℚ))
    (st : RedisState) (req : RetrieveMemoryRequest) : List MemoryView :=
  let index_key := "memory_index:" ++ req.conversation_id
  let memory_ids := st.indexes index_key
  if memory_ids = [] then []
  else
    let memories := memory_ids.filterMap (fun mid => st.records ("memory:" ++ mid))
    match embed req.query with
    | some qe =>
      let scored := memories.map (fun m =>
        match m.embedding with
        | some e => (m, (cosine_similarity sqrt qe e).getD 0)
        | none => (m, m.importance))
      let sorted := scored.mergeSort (fun x y => decide (y.2 ≤ x.2))
      (sorted.take req.limit).map (fun x =>
        { id := x.1.id, content := x.1.content, type := x.1.type,
          importance := x.1.importance, relevance_score := some x.2 })
    | none =>
      let sorted := memories.mergeSort (fun x y => decide (y.importance ≤ x.importance))
      (sorted.take req.limit).map (fun m =>
        { id := m.id, content := m.content, type := m.type,
          importance := m.importance, relevance_score := none })

/-- Redis `DELETE` of a record key (a no-op when the key is absent; the
source ignores the delete's return value). -/
def delRecord (st : RedisState) (key : String) : RedisState :=
  { st with records := fun k => if k = key then none else st.records k }

/-- The handler `clear_memories` (`DELETE /memory/...`): reads the index,
deletes each indexed record and then the index, and reports the index size
read before the deletions. -/
def clear_memories (st : RedisState) (conversation_id : String) :
    RedisState × Nat :=
  let index_key := "memory_index:" ++ conversation_id
  let memory_ids := st.indexes index_key
  let st1 := memory_ids.foldl
    (fun s mid => delRecord s ("memory:" ++ mid)) st
  let st2 : RedisState :=
    { st1 with indexes := fun k => if k = index_key then [] else st1.indexes k }
  (st2, memory_ids.length)

/-- The handler `get_memory_summary` (`GET /memory/.../summary`):
the conversation id and the index set size. -/
def get_memory_summary (st : RedisState) (conversation_id : String) :
    String × Nat :=
  (conversation_id, (st.indexes ("memory_index:" ++ conversation_id)).length)

/-! ### AI orchestration service
`src/services/ai-orchestration/src/routes/chat.py`.  The collaborators
(moderation service, chat service, memory service, the LLM) are explicit
parameters bundled in a dependency record; HTTP failures are
`Except (status, detail)`. -/

structure ChatRequest where
  conversation_id : String
  message : String
  user_id : String

/-- A message of the history fetched from the chat service. -/
structure HistoryMessage where
  role : String
  content : String
deriving DecidableEq, Repr

/-- A message sent to the LLM. -/
structure PromptMessage where
  role : String
  content : String
deriving DecidableEq, Repr

/-- What `check_moderation` returns after its degrade-to-passed defaults:
`moderation.get("passed", True)` and `moderation.get("flags", [])`. -/
structure Verdict where
  passed : Bool
  flags : List String
deriving DecidableEq, Repr

/-- Conversation context from `get_conversation_context`:
`character.get("systemPrompt")` and the recent messages. -/
structure ChatContext where
  systemPrompt : Option String
  messages : List HistoryMessage

/-- The memory-context note appended to the user message by
`build_messages`. -/
def memoryContext (memories : List String) : String :=
  if memories.isEmpty then ""
  else "\n\nRelevant context from previous conversations:\n" ++
    String.intercalate "\n" (memories.map (fun m => "- " ++ m))

/-- The function `build_messages`: history messages role-mapped (`"USER"` to `"user"`,
anything else to `"assistant"`), then the current user message with the
memory context appended.  (The source's unused `character` argument is
dropped.) -/
def build_messages (messages : List HistoryMessage) (user_message : String)
    (memories : List String) : List PromptMessage :=
  (messages.map (fun msg =>
    { role := if msg.role == "USER" then "user" else "assistant"
      content := msg.content })) ++
  [{ role := "user", content := user_message ++ memoryContext memories }]

/-- Result of the `chat` handler: an `HTTPException` (status, detail) or the
success envelope's `content` field (token metadata elided). -/
inductive ChatResult where
  | httpError : Nat → String → ChatResult
  | ok : String → ChatResult
deriving DecidableEq, Repr

/-- Collaborator behaviour for one `chat` request: whether the LLM client is
configured, the moderation verdict per content, the context fetch outcome,
the memories fetched, and the LLM call (system prompt, messages to
generated text, or an exception). -/
structure ChatDeps where
  clientConfigured : Bool
  moderation : String → Verdict
  context : Except (Nat × String) ChatContext
  memories : List String
  llm : String → List PromptMessage → Except String String

/-- The `chat` handler (`POST /chat`): 503 when the client is unconfigured;
400 `CONTENT_BLOCKED` when pre-send moderation fails; context-fetch errors
propagate; 500 when the LLM call raises; on success the generated content,
replaced by a fixed refusal string when post-generation moderation fails. -/
def chat (deps : ChatDeps) (request : ChatRequest) : ChatResult :=
  if !deps.clientConfigured then .httpError 503 "AI service not configured"
  else if !(deps.moderation request.message).passed then
    .httpError 400 "CONTENT_BLOCKED"
  else
    match deps.context with
    | .error e => .httpError e.1 e.2
    | .ok ctx =>
      let system_prompt := ctx.systemPrompt.getD "You are a helpful AI assistant."
      let claude_messages := build_messages ctx.messages request.message deps.memories
      match deps.llm system_prompt claude_messages with
      | .error _ => .httpError 500 "AI service error"
      | .ok content =>
        let response_moderation := deps.moderation content
        let final := if !response_moderation.passed then
            "I apologize, but I cannot provide that response."
          else content
        .ok final

/-- Behaviour of `client.messages.stream(...).text_stream` for one request:
either it yields all its chunks and finishes, or it raises after yielding a
prefix of chunks. -/
inductive StreamOutcome where
  | success : List String → StreamOutcome
  | failure : List String → StreamOutcome

/-- A server-sent event of `chat_stream`: `chunk` carries incremental text,
`done` the full content and the model name, `error` the fixed error
payload. -/
inductive SSEEvent where
  | chunk : String → SSEEvent
  | done : String → String → SSEEvent
  | error : String → SSEEvent
deriving DecidableEq, Repr

/-- The `for text in stream.text_stream` loop: accumulates `full_content`
and yields one `chunk` event per text. -/
def stream_loop : String → List String → String × List SSEEvent
  | full, [] => (full, [])
  | full, t :: ts =>
    let rest := stream_loop (full ++ t) ts
    (rest.1, SSEEvent.chunk t :: rest.2)

/-- The `generate` coroutine of `chat_stream`: chunks then one `done` event
with the accumulated content, or — when the provider raises — the chunks
yielded so far then one `error` event. -/
def generate (model : String) : StreamOutcome → List SSEEvent
  | .success chunks =>
    let r := stream_loop "" chunks
    r.2 ++ [SSEEvent.done r.1 model]
  | .failure chunks =>
    (stream_loop "" chunks).2 ++ [SSEEvent.error "AI service unavailable"]

/-- Collaborator behaviour for one `chat_stream` request. -/
structure ChatStreamDeps where
  clientConfigured : Bool
  moderation : String → Verdict
  context : Except (Nat × String) ChatContext
  memories : List String
  stream : StreamOutcome

/-- The `chat_stream` handler (`POST /chat/stream`): same preconditions as
`chat`, then the event sequence produced by `generate`. -/
def chat_stream (deps : ChatStreamDeps) (model : String)
    (request : ChatRequest) : Except (Nat × String) (List SSEEvent) :=
  if !deps.clientConfigured then .error (503, "AI service not configured")
  else if !(deps.moderation request.message).passed then
    .error (400, "Message blocked by content moderation")
  else
    match deps.context with
    | .error e => .error e
    | .ok _ => .ok (generate model deps.stream)

/-- Whether a classifier outcome carries a score inside `[0,1]` (the range
the classifier is prompted to produce); failure outcomes carry no score. -/
def classifierScoreInRange : ClassifierResponse → Bool
  | .parsed _ score => decide (0 ≤ score ∧ score ≤ 1)
  | _ => true

/-! ## Helper lemmas -/

/-- A blocked-pattern match on the lowercased content puts a high-severity
flag among the keyword flags. -/
theorem keyword_any_high_of_match {content : String}
    (h : ∃ p ∈ BLOCKED_PATTERNS, reSearch p (pyToLower content) = true) :
    (check_keyword_filters content).any (fun f => f.severity == "high") = true := by
  obtain ⟨p, hp, hs⟩ := h
  have hmem : keywordFlag ∈ check_keyword_filters content := by
    unfold check_keyword_filters
    exact List.mem_map.mpr ⟨p, List.mem_filter.mpr ⟨hp, by simp [hs]⟩, rfl⟩
  exact List.any_eq_true.mpr ⟨keywordFlag, hmem, rfl⟩

/-- With no blocked-pattern match the keyword filter produces no flags. -/
theorem keyword_nil_of_no_match {content : String}
    (h : ∀ p ∈ BLOCKED_PATTERNS, reSearch p (pyToLower content) = false) :
    check_keyword_filters content = [] := by
  unfold check_keyword_filters
  have : BLOCKED_PATTERNS.filter (fun p => reSearch p (pyToLower content)) = [] := by
    rw [List.filter_eq_nil_iff]
    intro p hp
    simp [h p hp]
  rw [this, List.map_nil]

/-! ## Claims -/

/-- C1: For every content string matching at least one of the blocked regex
patterns (scanned against the lowercased content), `moderate` returns
`passed=false` and `score=1.0`, and the result is independent of the
classifier outcome (the classifier is not consulted). -/
theorem moderate_blocked_short_circuits (resp resp2 : ClassifierResponse)
    (s : Settings) (content filter_level : String)
    (h : ∃ p ∈ BLOCKED_PATTERNS, reSearch p (pyToLower content) = true) :
    (moderate_content resp s content filter_level).passed = false ∧
    (moderate_content resp s content filter_level).score = 1 ∧
    moderate_content resp s content filter_level =
      moderate_content resp2 s content filter_level := by
  have hany := keyword_any_high_of_match h
  unfold moderate_content
  simp [hany]

/-- C1 witness: "Kill  Yourself now" matches the violence pattern; the
moderation verdict blocks with score 1 whatever the classifier would say. -/
theorem moderate_blocked_short_circuits_witness :
    (moderate_content (ClassifierResponse.parsed [] 0) defaultSettings
      "Kill  Yourself now" "relaxed").passed = false ∧
    (moderate_content (ClassifierResponse.parsed [] 0) defaultSettings
      "Kill  Yourself now" "relaxed").score = 1 ∧
    moderate_content (ClassifierResponse.parsed [] 0) defaultSettings
        "Kill  Yourself now" "relaxed" =
      moderate_content ClassifierResponse.unavailable defaultSettings
        "Kill  Yourself now" "relaxed" :=
  moderate_blocked_short_circuits (ClassifierResponse.parsed [] 0)
    ClassifierResponse.unavailable defaultSettings "Kill  Yourself now" "relaxed"
    (by decide)

/-- C2: With no blocked-pattern match, the final score is the classifier
score with a 0.5 floor when keyword flags are present (vacuously: there are
none), the flags are the classifier flags, and the request passes iff the
final score is strictly below the filter-level threshold (strict/moderate/
relaxed mapping to the low/medium/high thresholds, anything else to medium)
and no flag has severity "high". -/
theorem moderate_unblocked_score_and_threshold (resp : ClassifierResponse)
    (s : Settings) (content filter_level : String)
    (h : ∀ p ∈ BLOCKED_PATTERNS, reSearch p (pyToLower content) = false) :
    (moderate_content resp s content filter_level).score =
      (if (check_keyword_filters content).isEmpty
        then (check_ai_moderation resp).2
        else max (check_ai_moderation resp).2 (mkRat 1 2)) ∧
    (moderate_content resp s content filter_level).flags =
      (check_ai_moderation resp).1 ∧
    ((moderate_content resp s content filter_level).passed = true ↔
      ((moderate_content resp s content filter_level).score <
        (if filter_level = "strict" then s.severity_threshold_low
         else if filter_level = "moderate" then s.severity_threshold_medium
         else if filter_level = "relaxed" then s.severity_threshold_high
         else s.severity_threshold_medium) ∧
       ∀ f ∈ (moderate_content resp s content filter_level).flags,
         f.severity ≠ "high")) := by
  have hnil := keyword_nil_of_no_match h
  unfold moderate_content
  rw [hnil]
  refine ⟨by simp, by simp, ?_⟩
  unfold thresholdFor
  simp only [List.nil_append, List.isEmpty_nil, if_true, List.any_nil,
    Bool.false_eq_true, if_false, Bool.and_eq_true, decide_eq_true_eq,
    Bool.not_eq_eq_eq_not, Bool.not_true, List.any_eq_false, beq_eq_false_iff_ne,
    ne_eq, beq_iff_eq]

/-- C2 witness: "hello" matches no pattern; with a classifier score of 0.7
and an unrecognised filter level the medium threshold (0.6) applies and the
content fails. -/
theorem moderate_unblocked_score_and_threshold_witness :
    (moderate_content (ClassifierResponse.parsed [] (mkRat 7 10)) defaultSettings
      "hello" "weird").score =
      (if (check_keyword_filters "hello").isEmpty
        then (check_ai_moderation (ClassifierResponse.parsed [] (mkRat 7 10))).2
        else max (check_ai_moderation (ClassifierResponse.parsed [] (mkRat 7 10))).2 (mkRat 1 2)) ∧
    (moderate_content (ClassifierResponse.parsed [] (mkRat 7 10)) defaultSettings
      "hello" "weird").flags =
      (check_ai_moderation (ClassifierResponse.parsed [] (mkRat 7 10))).1 ∧
    ((moderate_content (ClassifierResponse.parsed [] (mkRat 7 10)) defaultSettings
      "hello" "weird").passed = true ↔
      ((moderate_content (ClassifierResponse.parsed [] (mkRat 7 10)) defaultSettings
        "hello" "weird").score <
        (if "weird" = "strict" then defaultSettings.severity_threshold_low
         else if "weird" = "moderate" then defaultSettings.severity_threshold_medium
         else if "weird" = "relaxed" then defaultSettings.severity_threshold_high
         else defaultSettings.severity_threshold_medium) ∧
       ∀ f ∈ (moderate_content (ClassifierResponse.parsed [] (mkRat 7 10)) defaultSettings
         "hello" "weird").flags, f.severity ≠ "high")) :=
  moderate_unblocked_score_and_threshold (ClassifierResponse.parsed [] (mkRat 7 10))
    defaultSettings "hello" "weird" (by decide)

/-- C3 counterexample: the code does not clamp the classifier-returned
score.  On "hello" (no blocked-pattern match) with a classifier JSON score
of 2, `moderate` returns score 2, outside `[0,1]`: the claim that the score
always lies in `[0,1]` for every classifier response is false. -/
theorem moderation_score_out_of_range :
    ¬((moderate_content (ClassifierResponse.parsed [] 2) defaultSettings
      "hello" "moderate").score ≤ 1) := by
  have h : check_keyword_filters "hello" = [] := by decide
  unfold moderate_content
  rw [h]
  norm_num [check_ai_moderation]

/-- C3 (amended): whenever the classifier-returned score lies in `[0,1]`
(and in every classifier-failure outcome), the score of the result of
`moderate` lies in `[0,1]`; an out-of-range classifier score, however,
flows through unclamped. -/
theorem moderation_score_in_unit_interval (resp : ClassifierResponse)
    (s : Settings) (content filter_level : String)
    (h : classifierScoreInRange resp = true) :
    0 ≤ (moderate_content resp s content filter_level).score ∧
    (moderate_content resp s content filter_level).score ≤ 1 := by
  have hhalf0 : (0:ℚ) ≤ mkRat 1 2 := by norm_num
  have hhalf1 : (mkRat 1 2 : ℚ) ≤ 1 := by norm_num [Rat.mkRat_eq_div]
  unfold moderate_content
  by_cases hany :
      (check_keyword_filters content).any (fun f => f.severity == "high") = true
  · simp only [hany, if_true]
    exact ⟨by norm_num, by norm_num⟩
  · simp only [Bool.not_eq_true] at hany
    simp only [hany, Bool.false_eq_true, if_false]
    have hai : 0 ≤ (check_ai_moderation resp).2 ∧ (check_ai_moderation resp).2 ≤ 1 := by
      cases resp with
      | unavailable => exact ⟨le_refl 0, by norm_num [check_ai_moderation]⟩
      | apiError => exact ⟨le_refl 0, by norm_num [check_ai_moderation]⟩
      | unparseable raw => exact ⟨le_refl 0, by norm_num [check_ai_moderation]⟩
      | parsed flags score =>
        simpa [classifierScoreInRange] using h
    by_cases hke : (check_keyword_filters content).isEmpty = true
    · simpa [hke] using hai
    · simp only [hke, Bool.false_eq_true, if_false]
      exact ⟨le_trans hai.1 (le_max_left _ _), max_le hai.2 hhalf1⟩

/-- C3 witness for the amended theorem: an in-range classifier score of 1
on unflagged content yields a result score inside `[0,1]`. -/
theorem moderation_score_in_unit_interval_witness :
    0 ≤ (moderate_content (ClassifierResponse.parsed [] 1) defaultSettings
      "hello" "strict").score ∧
    (moderate_content (ClassifierResponse.parsed [] 1) defaultSettings
      "hello" "strict").score ≤ 1 :=
  moderation_score_in_unit_interval (ClassifierResponse.parsed [] 1)
    defaultSettings "hello" "strict" (by decide)

/-- C4 counterexample: the claim's example is false on the code:
"how to make a bomb" does not match the illegal-activity regex
`\b(how\s+to\s+(make|create|build)\s+(bomb|weapon|drug))\b` (the article
"a" sits between `make` and `bomb`, but the regex requires whitespace
only), so with an unavailable classifier both batch items pass. -/
theorem moderate_batch_bomb_example_refuted :
    (moderate_batch (fun _ => ClassifierResponse.unavailable) defaultSettings
      ["hello world", "how to make a bomb"]).map (fun r => r.passed) =
      [true, true] := by
  decide

/-- C4 (amended): `moderate_batch` returns exactly `min(length, 10)`
results, one per item of the first 10, each moderated independently by the
loop body; each result's score is the raw classifier score (no 0.5 keyword
floor), and an item matching a blocked pattern has `passed=false` whatever
the classifier does; the spec's example holds for "how to make bomb"
(no article), which does match the pattern. -/
theorem moderate_batch_spec (classifier : String → ClassifierResponse)
    (s : Settings) (contents : List String) :
    (moderate_batch classifier s contents).length = min contents.length 10 ∧
    moderate_batch classifier s contents =
      (contents.take 10).map (moderate_batch_item classifier s) ∧
    (∀ content, (moderate_batch_item classifier s content).score =
      (check_ai_moderation (classifier content)).2) ∧
    (∀ content, (∃ p ∈ BLOCKED_PATTERNS, reSearch p (pyToLower content) = true) →
      (moderate_batch_item classifier s content).passed = false) ∧
    (moderate_batch (fun _ => ClassifierResponse.unavailable) defaultSettings
      ["hello world", "how to make bomb"]).map (fun r => r.passed) =
      [true, false] := by
  refine ⟨?_, rfl, fun content => rfl, ?_, by decide⟩
  · simp [moderate_batch, Nat.min_comm]
  · intro content h
    have hany := keyword_any_high_of_match h
    unfold moderate_batch_item
    have : ((check_keyword_filters content ++
        (check_ai_moderation (classifier content)).1).any
          (fun f => f.severity == "high")) = true := by
      rw [List.any_append, hany, Bool.true_or]
    simp [this]

/-- C4 witness: a one-item batch has `min 1 10 = 1` result, and the
blocked item "kill yourself" fails in the batch path. -/
theorem moderate_batch_spec_witness :
    (moderate_batch (fun _ => ClassifierResponse.unavailable) defaultSettings
      ["kill yourself"]).length = min 1 10 ∧
    (moderate_batch_item (fun _ => ClassifierResponse.unavailable)
      defaultSettings "kill yourself").passed = false :=
  ⟨(moderate_batch_spec (fun _ => ClassifierResponse.unavailable)
      defaultSettings ["kill yourself"]).1,
   (moderate_batch_spec (fun _ => ClassifierResponse.unavailable)
      defaultSettings ["kill yourself"]).2.2.2.1 "kill yourself" (by decide)⟩

/-- C5: when the classifier is unconfigured, raises, or returns a body that
is not valid JSON, `check_ai_moderation` yields `([], 0.0)`; `moderate`
still returns a normal result whose flags are exactly the keyword flags,
the keyword filter can still independently block, and with no
blocked-pattern match the score is 0. -/
theorem classifier_failure_fails_open (resp : ClassifierResponse)
    (s : Settings) (content filter_level : String)
    (h : resp = ClassifierResponse.unavailable ∨
      resp = ClassifierResponse.apiError ∨
      ∃ raw, resp = ClassifierResponse.unparseable raw) :
    check_ai_moderation resp = ([], 0) ∧
    (moderate_content resp s content filter_level).flags =
      check_keyword_filters content ∧
    ((∃ p ∈ BLOCKED_PATTERNS, reSearch p (pyToLower content) = true) →
      (moderate_content resp s content filter_level).passed = false) ∧
    ((∀ p ∈ BLOCKED_PATTERNS, reSearch p (pyToLower content) = false) →
      (moderate_content resp s content filter_level).score = 0) := by
  have hai : check_ai_moderation resp = ([], 0) := by
    rcases h with rfl | rfl | ⟨raw, rfl⟩ <;> rfl
  refine ⟨hai, ?_, ?_, ?_⟩
  · unfold moderate_content
    rw [hai]
    by_cases hany :
        (check_keyword_filters content).any (fun f => f.severity == "high") = true
    · simp [hany]
    · simp only [Bool.not_eq_true] at hany
      simp [hany]
  · intro hmatch
    have hany := keyword_any_high_of_match hmatch
    unfold moderate_content
    simp [hany]
  · intro hno
    have hnil := keyword_nil_of_no_match hno
    unfold moderate_content
    rw [hnil, hai]
    simp

/-- C5 witness: with the classifier unavailable, "how to make bomb" is
still blocked by the keyword filter, and "hello" gets score 0. -/
theorem classifier_failure_fails_open_witness :
    check_ai_moderation ClassifierResponse.unavailable = ([], 0) ∧
    (moderate_content ClassifierResponse.unavailable defaultSettings
      "how to make bomb" "moderate").passed = false ∧
    (moderate_content ClassifierResponse.unavailable defaultSettings
      "hello" "moderate").score = 0 :=
  ⟨(classifier_failure_fails_open ClassifierResponse.unavailable
      defaultSettings "how to make bomb" "moderate" (Or.inl rfl)).1,
   (classifier_failure_fails_open ClassifierResponse.unavailable
      defaultSettings "how to make bomb" "moderate" (Or.inl rfl)).2.2.1
     (by decide),
   (classifier_failure_fails_open ClassifierResponse.unavailable
      defaultSettings "hello" "moderate" (Or.inl rfl)).2.2.2 (by decide)⟩

/-- C6: the cosine-similarity function used by `retrieve_memories` never
divides by zero (its result is always defined); it returns 0 whenever either
computed norm is zero — in particular on a zero vector, given only that the
abstracted square root maps 0 to 0 — and for vectors of equal length with
nonzero norms it returns `dot(a,b) / (|a|·|b|)`. -/
theorem cosine_similarity_no_div_by_zero (sqrt : ℚ → ℚ) (a b : List ℚ) :
    (cosine_similarity sqrt a b).isSome = true ∧
    ((sqrt ((a.map (fun x => x * x)).sum) = 0 ∨
      sqrt ((b.map (fun x => x * x)).sum) = 0) →
      cosine_similarity sqrt a b = some 0) ∧
    ((sqrt 0 = 0 ∧ ∀ x ∈ a, x = 0) → cosine_similarity sqrt a b = some 0) ∧
    (a.length = b.length →
      sqrt ((a.map (fun x => x * x)).sum) ≠ 0 →
      sqrt ((b.map (fun x => x * x)).sum) ≠ 0 →
      cosine_similarity sqrt a b =
        some ((List.zipWith (fun x y => x * y) a b).sum /
          (sqrt ((a.map (fun x => x * x)).sum) *
           sqrt ((b.map (fun x => x * x)).sum)))) := by
  have hzero : (sqrt ((a.map (fun x => x * x)).sum) = 0 ∨
      sqrt ((b.map (fun x => x * x)).sum) = 0) →
      cosine_similarity sqrt a b = some 0 := by
    intro h
    unfold cosine_similarity
    rcases h with h | h <;> simp [h]
  refine ⟨?_, hzero, ?_, ?_⟩
  · unfold cosine_similarity
    by_cases hn : sqrt ((a.map (fun x => x * x)).sum) ≠ 0 ∧
        sqrt ((b.map (fun x => x * x)).sum) ≠ 0
    · rw [if_pos hn]
      unfold pyDiv
      rw [if_neg (mul_ne_zero hn.1 hn.2)]
      rfl
    · rw [if_neg hn]
      rfl
  · rintro ⟨hs, hz⟩
    apply hzero
    left
    have : (a.map (fun x => x * x)).sum = 0 := by
      apply List.sum_eq_zero
      intro y hy
      obtain ⟨x, hx, rfl⟩ := List.mem_map.mp hy
      rw [hz x hx]
      ring
    rw [this, hs]
  · intro _ hn1 hn2
    unfold cosine_similarity
    rw [if_pos ⟨hn1, hn2⟩]
    unfold pyDiv
    rw [if_neg (mul_ne_zero hn1 hn2)]

/-- C6 witness: with the identity standing in for the square root, the
zero vector against `[3]` gives similarity 0, and `[1] · [2]` with nonzero
norms gives the guarded quotient. -/
theorem cosine_similarity_no_div_by_zero_witness :
    cosine_similarity id [(0:ℚ), 0] [(0:ℚ), 0] = some 0 ∧
    cosine_similarity id [(1:ℚ)] [(2:ℚ)] =
      some ((List.zipWith (fun x y => x * y) [(1:ℚ)] [(2:ℚ)]).sum /
        (id (([(1:ℚ)].map (fun x => x * x)).sum) *
         id (([(2:ℚ)].map (fun x => x * x)).sum))) :=
  ⟨(cosine_similarity_no_div_by_zero id [(0:ℚ), 0] [(0:ℚ), 0]).2.2.1
      ⟨rfl, by decide⟩,
   (cosine_similarity_no_div_by_zero id [(1:ℚ)] [(2:ℚ)]).2.2.2 rfl
      (by norm_num) (by norm_num)⟩

/-- Deleting record keys never touches the index map. -/
theorem foldl_delRecord_indexes (l : List String) (st : RedisState) :
    (l.foldl (fun s mid => delRecord s ("memory:" ++ mid)) st).indexes =
      st.indexes := by
  induction l generalizing st with
  | nil => rfl
  | cons x xs ih => exact ih (delRecord st ("memory:" ++ x))

/-- A key already absent stays absent through the record-deletion loop. -/
theorem foldl_delRecord_preserves_none (l : List String) (st : RedisState)
    (k : String) (h : st.records k = none) :
    (l.foldl (fun s mid => delRecord s ("memory:" ++ mid)) st).records k =
      none := by
  induction l generalizing st with
  | nil => exact h
  | cons x xs ih =>
    apply ih
    show (if k = "memory:" ++ x then none else st.records k) = none
    by_cases hk : k = "memory:" ++ x
    · rw [if_pos hk]
    · rw [if_neg hk]
      exact h

/-- Every key deleted in the loop is absent afterwards. -/
theorem foldl_delRecord_records (l : List String) (st : RedisState)
    (mid : String) :
    mid ∈ l →
    (l.foldl (fun s m => delRecord s ("memory:" ++ m)) st).records
      ("memory:" ++ mid) = none := by
  induction l generalizing st with
  | nil =>
    intro hmem
    cases hmem
  | cons x xs ih =>
    intro hmem
    rcases List.mem_cons.mp hmem with rfl | hxs
    · rw [List.foldl_cons]
      apply foldl_delRecord_preserves_none
      show (if ("memory:" ++ mid) = "memory:" ++ mid then none
        else st.records ("memory:" ++ mid)) = none
      rw [if_pos rfl]
    · rw [List.foldl_cons]
      exact ih (delRecord st ("memory:" ++ x)) hxs

/-- C7: `clear_memories` reports the index size read before any deletion,
empties the index, deletes every indexed record, and a subsequent
`retrieve_memories` on the same conversation returns the empty sequence. -/
theorem clear_memories_spec (st : RedisState) (cid : String) :
    (clear_memories st cid).2 = (st.indexes ("memory_index:" ++ cid)).length ∧
    (clear_memories st cid).1.indexes ("memory_index:" ++ cid) = [] ∧
    (∀ mid ∈ st.indexes ("memory_index:" ++ cid),
      (clear_memories st cid).1.records ("memory:" ++ mid) = none) ∧
    (∀ sq embed req, req.conversation_id = cid →
      retrieve_memories sq embed (clear_memories st cid).1 req = []) := by
  have hidx : (clear_memories st cid).1.indexes ("memory_index:" ++ cid) = [] := by
    unfold clear_memories
    simp
  refine ⟨rfl, hidx, ?_, ?_⟩
  · intro mid hmem
    exact foldl_delRecord_records (st.indexes ("memory_index:" ++ cid)) st mid hmem
  · intro sq embed req hcid
    unfold retrieve_memories
    rw [hcid]
    simp [hidx]

/-- C7 witness: clearing a conversation with two indexed ids reports 2 and
a retrieval afterwards is empty. -/
theorem clear_memories_spec_witness :
    (clear_memories
      { records := fun _ => none
        indexes := fun k => if k = "memory_index:c1" then ["c1:7", "c1:9"] else [] }
      "c1").2 = 2 ∧
    retrieve_memories id (fun _ => none)
      (clear_memories
        { records := fun _ => none
          indexes := fun k => if k = "memory_index:c1" then ["c1:7", "c1:9"] else [] }
        "c1").1
      { conversation_id := "c1", query := "tea", limit := 5 } = [] :=
  ⟨by
    rw [(clear_memories_spec
      { records := fun _ => none
        indexes := fun k => if k = "memory_index:c1" then ["c1:7", "c1:9"] else [] }
      "c1").1]
    decide,
   (clear_memories_spec
      { records := fun _ => none
        indexes := fun k => if k = "memory_index:c1" then ["c1:7", "c1:9"] else [] }
      "c1").2.2.2 id (fun _ => none)
      { conversation_id := "c1", query := "tea", limit := 5 } rfl⟩

/-- C8: with a configured client, a failed pre-send moderation of the user
message yields HTTP 400 `CONTENT_BLOCKED` whatever the context, memories or
LLM would do (nothing is generated); and when generation succeeds but the
post-generation moderation of the response fails, `chat` still returns a
success result whose content is the fixed refusal string. -/
theorem chat_moderation_paths (deps : ChatDeps) (request : ChatRequest)
    (hc : deps.clientConfigured = true) :
    ((deps.moderation request.message).passed = false →
      chat deps request = ChatResult.httpError 400 "CONTENT_BLOCKED" ∧
      (∀ ctx llm mem,
        chat { deps with context := ctx, llm := llm, memories := mem } request =
          ChatResult.httpError 400 "CONTENT_BLOCKED")) ∧
    (∀ ctx content, (deps.moderation request.message).passed = true →
      deps.context = Except.ok ctx →
      deps.llm (ctx.systemPrompt.getD "You are a helpful AI assistant.")
        (build_messages ctx.messages request.message deps.memories) =
        Except.ok content →
      (deps.moderation content).passed = false →
      chat deps request =
        ChatResult.ok "I apologize, but I cannot provide that response.") := by
  constructor
  · intro hm
    constructor
    · unfold chat
      simp [hc, hm]
    · intro ctx llm mem
      unfold chat
      simp [hc, hm]
  · intro ctx content hm hctx hllm hpost
    unfold chat
    rw [hctx]
    simp [hc, hm, hllm, hpost]

/-- C8 witness: a toy collaborator set where the user message passes, the
LLM returns "bad", and "bad" fails post-moderation: the reply is the fixed
refusal string; sending "bad" as the user message is blocked with 400. -/
theorem chat_moderation_paths_witness :
    chat
      { clientConfigured := true
        moderation := fun s =>
          if s = "bad" then { passed := false, flags := [] }
          else { passed := true, flags := [] }
        context := Except.ok { systemPrompt := none, messages := [] }
        memories := []
        llm := fun _ _ => Except.ok "bad" }
      { conversation_id := "c", message := "hi", user_id := "u" } =
      ChatResult.ok "I apologize, but I cannot provide that response." ∧
    chat
      { clientConfigured := true
        moderation := fun s =>
          if s = "bad" then { passed := false, flags := [] }
          else { passed := true, flags := [] }
        context := Except.ok { systemPrompt := none, messages := [] }
        memories := []
        llm := fun _ _ => Except.ok "bad" }
      { conversation_id := "c", message := "bad", user_id := "u" } =
      ChatResult.httpError 400 "CONTENT_BLOCKED" :=
  ⟨(chat_moderation_paths _ _ rfl).2 { systemPrompt := none, messages := [] }
      "bad" (by decide) rfl rfl (by decide),
   ((chat_moderation_paths _ _ rfl).1 (by decide)).1⟩

/-- The streaming loop yields one `chunk` event per text and accumulates
the concatenation. -/
theorem stream_loop_spec (ts : List String) (full : String) :
    stream_loop full ts =
      (ts.foldl (fun a b => a ++ b) full, ts.map SSEEvent.chunk) := by
  induction ts generalizing full with
  | nil => rfl
  | cons t ts ih => simp [stream_loop, ih]

/-- C9: with a configured client (and passing prechecks), `chat_stream`
emits the chunk events followed by exactly one `done` event carrying the
concatenation of all chunk texts; when the provider raises mid-stream, the
chunks emitted so far are followed by exactly one `error` event and no
`done`; in no case does the event sequence contain both a `done` and an
`error` event. -/
theorem chat_stream_event_protocol (deps : ChatStreamDeps) (model : String)
    (request : ChatRequest)
    (hc : deps.clientConfigured = true)
    (hm : (deps.moderation request.message).passed = true)
    (ctx : ChatContext) (hctx : deps.context = Except.ok ctx) :
    (∀ chunks, deps.stream = StreamOutcome.success chunks →
      chat_stream deps model request =
        Except.ok (chunks.map SSEEvent.chunk ++
          [SSEEvent.done (chunks.foldl (fun a b => a ++ b) "") model])) ∧
    (∀ chunks, deps.stream = StreamOutcome.failure chunks →
      chat_stream deps model request =
        Except.ok (chunks.map SSEEvent.chunk ++
          [SSEEvent.error "AI service unavailable"])) ∧
    (∀ evs, chat_stream deps model request = Except.ok evs →
      ¬((∃ c m, SSEEvent.done c m ∈ evs) ∧ (∃ e, SSEEvent.error e ∈ evs))) := by
  have hrun : chat_stream deps model request =
      Except.ok (generate model deps.stream) := by
    unfold chat_stream
    rw [hctx]
    simp [hc, hm]
  refine ⟨?_, ?_, ?_⟩
  · intro chunks hs
    rw [hrun, hs]
    simp [generate, stream_loop_spec]
  · intro chunks hs
    rw [hrun, hs]
    simp [generate, stream_loop_spec]
  · intro evs hevs
    rw [hrun] at hevs
    injection hevs with hevs
    subst hevs
    rintro ⟨⟨c, m, hdone⟩, ⟨e, herr⟩⟩
    cases hstream : deps.stream with
    | success chunks =>
      rw [hstream] at herr
      simp [generate, stream_loop_spec] at herr
    | failure chunks =>
      rw [hstream] at hdone
      simp [generate, stream_loop_spec] at hdone

/-- C9 witness: a stream yielding "Hel" and "lo" produces two chunk events
and one done event carrying "Hello". -/
theorem chat_stream_event_protocol_witness :
    chat_stream
      { clientConfigured := true
        moderation := fun _ => { passed := true, flags := [] }
        context := Except.ok { systemPrompt := none, messages := [] }
        memories := []
        stream := StreamOutcome.success ["Hel", "lo"] }
      "model-m" { conversation_id := "c", message := "hi", user_id := "u" } =
      Except.ok [SSEEvent.chunk "Hel", SSEEvent.chunk "lo",
        SSEEvent.done "Hello" "model-m"] := by
  have h := (chat_stream_event_protocol
    { clientConfigured := true
      moderation := fun _ => { passed := true, flags := [] }
      context := Except.ok { systemPrompt := none, messages := [] }
      memories := []
      stream := StreamOutcome.success ["Hel", "lo"] }
    "model-m" { conversation_id := "c", message := "hi", user_id := "u" }
    rfl rfl { systemPrompt := none, messages := [] } rfl).1 ["Hel", "lo"] rfl
  simpa using h

/-- C10 (implicit): `store_memory` is idempotent on the index within one
process: the id derives from `conversation_id + ":" + hash(content)`, so a
second identical call writes the same record key and leaves the index map
(hence `get_memory_summary`'s count) and the record map unchanged. -/
theorem store_memory_idempotent_on_index (pyhash : String → Int)
    (embed : String → Option (List ℚ)) (st : RedisState)
    (req : StoreMemoryRequest) :
    (store_memory pyhash embed st req).2 =
      req.conversation_id ++ ":" ++ toString (pyhash req.content) ∧
    (store_memory pyhash embed (store_memory pyhash embed st req).1 req).2 =
      (store_memory pyhash embed st req).2 ∧
    (∀ k, (store_memory pyhash embed
        (store_memory pyhash embed st req).1 req).1.indexes k =
      (store_memory pyhash embed st req).1.indexes k) ∧
    get_memory_summary
        (store_memory pyhash embed (store_memory pyhash embed st req).1 req).1
        req.conversation_id =
      get_memory_summary (store_memory pyhash embed st req).1
        req.conversation_id ∧
    (∀ k, (store_memory pyhash embed
        (store_memory pyhash embed st req).1 req).1.records k =
      (store_memory pyhash embed st req).1.records k) := by
  have hmem : ∀ (l : List String) (x : String), x ∈ saddList l x := by
    intro l x
    unfold saddList
    by_cases h : x ∈ l
    · rwa [if_pos h]
    · rw [if_neg h]
      exact List.mem_cons_self x l
  have hidem : ∀ (l : List String) (x : String),
      saddList (saddList l x) x = saddList l x := by
    intro l x
    conv_lhs => rw [saddList]
    rw [if_pos (hmem l x)]
  have hidx : ∀ k, (store_memory pyhash embed
      (store_memory pyhash embed st req).1 req).1.indexes k =
      (store_memory pyhash embed st req).1.indexes k := by
    intro k
    unfold store_memory
    by_cases hk : k = "memory_index:" ++ req.conversation_id <;>
      simp [hk, hidem]
  refine ⟨rfl, rfl, hidx, ?_, ?_⟩
  · unfold get_memory_summary
    rw [hidx]
  · intro k
    unfold store_memory
    by_cases hk : k = "memory:" ++
        (req.conversation_id ++ ":" ++ toString (pyhash req.content)) <;>
      simp [hk]

end Bostonia
